import Mathlib

/-!
Verification of the streaming orchestration core of the error-log-streamer
server (`src/server/index.js`, `src/server/db/postgres.js`, and the AI
provider service).  The JavaScript is shallowly embedded: every mutable
module-level binding becomes a field of an explicit state record, every
`async` function that can `throw` returns an `Except String` result paired
with the state it leaves behind, and external I/O outcomes (the generation
backend, database errors) are injected as explicit parameters.

Conventions of the embedding:
* Nullable/maybe-empty JavaScript strings are modelled as `Option String`.
  The code only ever consumes these fields through truthiness tests (`!x`)
  and `x || y`, under which the empty string and `undefined`/`null` are
  indistinguishable, so `truthyStr` normalises `some ""` to `none` at every
  point where the JavaScript tests truthiness.
* Database reads are modelled as total; database write failures are
  injected exactly where a claim exercises them (`insertErrorLog`,
  `saveAIProviderSettings`, the app-config upsert in the configure route).
-/

namespace ErrorLogStreamer

/-- A JavaScript scalar as it can reach `clampVariationLimit`:
an (integral) number, a string, or `undefined`/`null`. -/
inductive JsVal where
  | num (n : Int)
  | str (s : String)
  | undefined
  deriving Repr, DecidableEq

/-- Longest leading run of decimal digits. -/
def takeDigits : List Char → List Char
  | [] => []
  | c :: cs => if c.isDigit then c :: takeDigits cs else []

/-- Numeric value of a digit string. -/
def digitsToNat (ds : List Char) : Nat :=
  ds.foldl (fun a c => a * 10 + (c.toNat - 48)) 0

/-- JavaScript `parseInt(s, 10)` on a string: skip leading whitespace, an
optional sign, then the longest decimal-digit prefix; `NaN` (here `none`)
when no digit follows. -/
def parseIntStr (s : String) : Option Int :=
  let cs := s.data.dropWhile Char.isWhitespace
  match cs with
  | '-' :: rest =>
      let ds := takeDigits rest
      if ds.isEmpty then none else some (-(digitsToNat ds : Int))
  | '+' :: rest =>
      let ds := takeDigits rest
      if ds.isEmpty then none else some (digitsToNat ds)
  | _ =>
      let ds := takeDigits cs
      if ds.isEmpty then none else some (digitsToNat ds)

/-- JavaScript `parseInt(v, 10)` over the scalar values the server feeds it;
`none` is `NaN`. -/
def parseIntJs : JsVal → Option Int
  | .num n => some n
  | .str s => parseIntStr s
  | .undefined => none

-- Constants of `src/server/index.js`.
def FALLBACK_GEMINI_MODEL : String := "gemini-2.5-flash-preview-05-20"
def FALLBACK_GEMINI_API_URL : String := "https://generativelanguage.googleapis.com"
def FALLBACK_OLLAMA_MODEL : String := "llama3.2:3b"
def FALLBACK_OLLAMA_API_URL : String := "http://localhost:11434"
def DEFAULT_VARIATION_LIMIT : Int := 10
def MIN_VARIATION_LIMIT : Int := 1
def MAX_VARIATION_LIMIT : Int := 10

/-- `clampVariationLimit` (index.js lines 69-75): parse, default on `NaN`,
clamp into `[MIN_VARIATION_LIMIT, MAX_VARIATION_LIMIT]`. -/
def clampVariationLimit (raw : JsVal) : Int :=
  match parseIntJs raw with
  | none => DEFAULT_VARIATION_LIMIT
  | some n => min MAX_VARIATION_LIMIT (max MIN_VARIATION_LIMIT n)

/-- JavaScript truthiness for a nullable string: `some ""` and `none` are
both falsy. -/
def truthyStr : Option String → Option String
  | some v => if v = "" then none else some v
  | none => none

/-- JavaScript `a || b` on nullable strings. -/
def jsOr (a b : Option String) : Option String :=
  match truthyStr a with
  | some v => some v
  | none => b

/-- The value an app-config lookup feeds to `clampVariationLimit`:
the stored string, or `undefined` when the key is absent. -/
def jsOfLookup : Option String → JsVal
  | some v => .str v
  | none => .undefined

/-- One row of `ai_provider_settings` as surfaced by `getAIProviderSettings`
(postgres.js): nullable model name, endpoint, credential. -/
structure ProviderConfig where
  modelName : Option String
  apiUrl : Option String
  apiKey : Option String
  deriving Repr, DecidableEq

/-- The shape `getAIProviderSettings` returns: the provider marked active
(if any) and the per-provider configs, keyed by provider type. -/
structure ProviderSettings where
  activeProvider : Option String
  providers : List (String × ProviderConfig)
  deriving Repr, DecidableEq

/-- Modelled from the spec: the persisted key/value application-config
store.  Its implementation (`getAppConfig`/`upsertAppConfig`, imported by
`src/server/index.js` from `./db/postgres.js`) is absent from the sources;
per spec section 2/3 it is "a persisted key/value application-config
snapshot", so it is modelled as an association list of string keys and
string values: a read looks a key up, an upsert replaces or appends the
key's binding. -/
abbrev AppConfig := List (String × String)

/-- Replace the binding of `k` (or append one) in an association list. -/
def setKey {α : Type} : List (String × α) → String → α → List (String × α)
  | [], k, v => [(k, v)]
  | (k0, v0) :: rest, k, v =>
      if k0 = k then (k0, v) :: rest else (k0, v0) :: setKey rest k v

/-- The environment variables the resolver consults. -/
structure Env where
  GEMINI_API_KEY : Option String
  OLLAMA_API_KEY : Option String
  deriving Repr, DecidableEq

/-- The cached provider summary `currentProviderInfo`. -/
structure ProviderInfo where
  type : String
  modelName : String
  deriving Repr, DecidableEq

/-- The descriptor `resolveActiveAIProviderConfig` returns on success. -/
structure ResolvedProvider where
  type : String
  modelName : String
  apiUrl : String
  apiKey : Option String
  deriving Repr, DecidableEq

/-- The in-memory `config` object: tick interval and prompt template. -/
structure ServerConfig where
  interval : Int
  template : String
  deriving Repr, DecidableEq

/-- The server's module-level mutable state: `config`, `isStreaming`, the
timer handle (with its period), `currentProviderInfo`,
`currentVariationLimit`, plus the persisted stores and the process
environment the operations read and write. -/
structure ServerState where
  config : ServerConfig
  isStreaming : Bool
  timerInterval : Option Int
  currentProviderInfo : Option ProviderInfo
  currentVariationLimit : Int
  aiSettings : ProviderSettings
  appConfig : AppConfig
  env : Env
  deriving Repr, DecidableEq

/-- Which provider the fallback ladder of lines 156-190 (and identically
lines 91-115 in `ensureCurrentProviderInfo`) commits to. -/
inductive ProviderChoice where
  | stored (p : String)
  | fallbackGemini (key : String)
  | noneConfigured
  deriving Repr, DecidableEq

/-- The shared provider-selection ladder (index.js lines 156-169 and the
`!providerType` tests of lines 171-172): take the explicitly active
provider if truthy; otherwise consult the app-config `ACTIVE_PROVIDER`
(used only when a matching provider entry exists) and, on the same branch,
adopt a truthy persisted `ERROR_VARIATION_LIMIT`; when still unresolved,
use the gemini fallback when `GEMINI_API_KEY` is truthy, else nothing. -/
def selectProvider (s : ServerState) : ProviderChoice × ServerState :=
  match truthyStr s.aiSettings.activeProvider with
  | some p => (.stored p, s)
  | none =>
      let acp := truthyStr (s.appConfig.lookup "ACTIVE_PROVIDER")
      let evl := truthyStr (s.appConfig.lookup "ERROR_VARIATION_LIMIT")
      let pt : Option String :=
        match acp with
        | some ap => if (s.aiSettings.providers.lookup ap).isSome then some ap else none
        | none => none
      let s1 :=
        match evl with
        | some v => { s with currentVariationLimit := clampVariationLimit (.str v) }
        | none => s
      match pt with
      | some p => (.stored p, s1)
      | none =>
          match truthyStr s.env.GEMINI_API_KEY with
          | some key => (.fallbackGemini key, s1)
          | none => (.noneConfigured, s1)

/-- Lines 192-232 of index.js: resolve the chosen provider type `p` from
its stored config, per-type defaults and environment credentials, with the
source's three validation checks in source order.  A pure function of
exactly what those lines read. -/
def storedResolution (p : String) (providers : List (String × ProviderConfig))
    (env : Env) : Except String ResolvedProvider :=
  match providers.lookup p with
  | none => .error ("Configuration missing for provider \x22" ++ p ++ "\x22.")
  | some pc =>
      let modelName := jsOr pc.modelName
        (if p = "gemini" then some FALLBACK_GEMINI_MODEL
         else if p = "ollama" then some FALLBACK_OLLAMA_MODEL else none)
      let apiUrl := jsOr pc.apiUrl
        (if p = "gemini" then some FALLBACK_GEMINI_API_URL
         else if p = "ollama" then some FALLBACK_OLLAMA_API_URL else none)
      let apiKey := jsOr pc.apiKey
        (if p = "gemini" then truthyStr env.GEMINI_API_KEY
         else if p = "ollama" then truthyStr env.OLLAMA_API_KEY else none)
      match modelName with
      | none => .error ("Model name is required for provider \x22" ++ p ++ "\x22.")
      | some mn =>
          if p = "gemini" ∧ apiKey = none then
            .error "Gemini API key is not configured. Please update the provider settings."
          else
            match apiUrl with
            | none => .error ("API URL is required for provider \x22" ++ p ++ "\x22.")
            | some au => .ok ⟨p, mn, au, apiKey⟩

/-- `resolveActiveAIProviderConfig` (index.js lines 154-241).  The
`Except.error` constructor models a thrown `Error` (carrying its message);
the returned state carries every mutation the call performed before
returning or throwing. -/
def resolveActiveAIProviderConfig (s : ServerState) :
    Except String ResolvedProvider × ServerState :=
  match selectProvider s with
  | (.noneConfigured, s1) =>
      (.error "No AI provider configured. Please configure one in Settings.", s1)
  | (.fallbackGemini key, s1) =>
      let fb : ResolvedProvider :=
        { type := "gemini", modelName := FALLBACK_GEMINI_MODEL,
          apiUrl := FALLBACK_GEMINI_API_URL, apiKey := some key }
      let s2 := { s1 with currentProviderInfo := some ⟨fb.type, fb.modelName⟩ }
      let s3 := { s2 with appConfig := setKey s2.appConfig "ACTIVE_PROVIDER" fb.type }
      let s4 := { s3 with currentVariationLimit :=
        clampVariationLimit (jsOfLookup (s3.appConfig.lookup "ERROR_VARIATION_LIMIT")) }
      (.ok fb, s4)
  | (.stored p, s1) =>
      match storedResolution p s1.aiSettings.providers s1.env with
      | .error m => (.error m, s1)
      | .ok r =>
          let s2 := { s1 with currentProviderInfo := some ⟨r.type, r.modelName⟩ }
          let s3 := { s2 with appConfig := setKey s2.appConfig "ACTIVE_PROVIDER" p }
          (.ok r, s3)

/-- The recomputation branch of `ensureCurrentProviderInfo` (index.js lines
89-129): same selection ladder, but a missing provider entry degrades to
`{}`, the model-name default is two-way (gemini vs. everything else), and
nothing is written to the app-config store.  Store errors are caught inside
the function (it then returns the stale summary), so it is total. -/
def ensureCompute (s : ServerState) : Option ProviderInfo × ServerState :=
  match selectProvider s with
  | (.noneConfigured, s1) => (none, s1)
  | (.fallbackGemini _, s1) =>
      let info : ProviderInfo := ⟨"gemini", FALLBACK_GEMINI_MODEL⟩
      (some info, { s1 with currentProviderInfo := some info })
  | (.stored p, s1) =>
      let pc := (s1.aiSettings.providers.lookup p).getD ⟨none, none, none⟩
      let mn := (jsOr pc.modelName
        (some (if p = "gemini" then FALLBACK_GEMINI_MODEL else FALLBACK_OLLAMA_MODEL))).getD ""
      let info : ProviderInfo := ⟨p, mn⟩
      (some info, { s1 with currentProviderInfo := some info })

/-- `ensureCurrentProviderInfo` (index.js lines 84-130): return the cached
summary when its `type` is truthy, else recompute. -/
def ensureCurrentProviderInfo (s : ServerState) : Option ProviderInfo × ServerState :=
  match s.currentProviderInfo with
  | some info => if info.type = "" then ensureCompute s else (some info, s)
  | none => ensureCompute s

/-- A generated event record.  The orchestration core never inspects the
parsed JSON object it passes around, so the record is identified with its
serialised payload. -/
abbrev EventRecord := String

/-- A message broadcast over the WebSocket channel.  The optional provider
field is `none` when the payload omits the `provider` key. -/
inductive WireMsg where
  | status (isStreaming : Bool) (interval : Int) (provider : Option ProviderInfo)
  | errorLog (data : EventRecord) (provider : Option ProviderInfo)
  | err (message : String) (provider : Option ProviderInfo)
  deriving Repr, DecidableEq

/-- `insertErrorLog` (postgres.js lines 25-57): on a query failure
(injected as `dbError`) it logs and rethrows the error; on success it
returns the inserted row id. -/
def insertErrorLog (dbError : Option String) (_log : EventRecord) : Except String Nat :=
  match dbError with
  | some e => .error e
  | none => .ok 1

/-- Outcomes of the external effects one tick performs: the generation
backend's result (`generateSyntheticError` returning the parsed record,
a falsy parse result, or throwing), and the database insert's failure. -/
structure TickEffects where
  backendResult : Except String (Option EventRecord)
  dbError : Option String
  deriving Repr

/-- `buildGenerationPrompt` (index.js lines 77-82) as invoked by a tick:
re-clamps `currentVariationLimit` and substitutes it into the template. -/
def buildGenerationPrompt (s : ServerState) : String × ServerState :=
  let limit := clampVariationLimit (.num s.currentVariationLimit)
  ((s.config.template).replace "\x7b\x7bVARIATION_LIMIT\x7d\x7d" (toString limit),
   { s with currentVariationLimit := limit })

/-- The `try` block of `generateAndBroadcast` (index.js lines 324-347):
resolve, build the prompt, call the backend, and on a truthy record attempt
the insert (its failure is caught inline and ignored) and emit the
`error-log` broadcast.  An `Except.error` is an exception escaping the
block; the state records the mutations performed before it was raised. -/
def tickBody (eff : TickEffects) (s : ServerState) :
    Except String (List WireMsg) × ServerState :=
  match resolveActiveAIProviderConfig s with
  | (.error m, s1) => (.error m, s1)
  | (.ok _, s1) =>
      let (_prompt, s2) := buildGenerationPrompt s1
      match eff.backendResult with
      | .error m => (.error m, s2)
      | .ok none => (.ok [], s2)
      | .ok (some log) =>
          let msgs := [WireMsg.errorLog log s2.currentProviderInfo]
          match insertErrorLog eff.dbError log with
          | .ok _ => (.ok msgs, s2)
          | .error _ => (.ok msgs, s2)

/-- `generateAndBroadcast` (index.js lines 323-359): run the tick body and
catch any exception, converting it into one `error` broadcast that carries
the failure's message (with a default for an empty one) and the provider
summary when one is known. -/
def generateAndBroadcast (eff : TickEffects) (s : ServerState) :
    ServerState × List WireMsg :=
  match tickBody eff s with
  | (.ok msgs, s1) => (s1, msgs)
  | (.error m, s1) =>
      let message := if m = "" then "Failed to generate error log" else m
      (s1, [WireMsg.err message s1.currentProviderInfo])

/-- `broadcastStatus` (index.js lines 132-152): resolve the provider
summary, then emit a `status` message with the current run flag and the
override interval (falling back to `config.interval`). -/
def broadcastStatusMsg (intervalOverride : Option Int) (s : ServerState) :
    WireMsg × ServerState :=
  let (p, s1) := ensureCurrentProviderInfo s
  (.status s1.isStreaming (intervalOverride.getD s1.config.interval) p, s1)

/-- The result object of `startStream`; the no-op branch carries no
interval field. -/
structure StartResult where
  success : Bool
  message : String
  interval : Option Int
  deriving Repr, DecidableEq

/-- The result object of `stopStream`. -/
structure StopResult where
  success : Bool
  message : String
  deriving Repr, DecidableEq

/-- `startStream` (index.js lines 286-304): no-op when already streaming;
otherwise set the flag, compute `interval || config.interval`, run the
first tick immediately, install the timer, and broadcast a status update
with the effective interval. -/
def startStream (interval : Int) (eff : TickEffects) (s : ServerState) :
    StartResult × ServerState × List WireMsg :=
  if s.isStreaming then
    ({ success := false, message := "Stream is already running", interval := none }, s, [])
  else
    let s1 := { s with isStreaming := true }
    let ms := if interval = 0 then s1.config.interval else interval
    let (s2, tickMsgs) := generateAndBroadcast eff s1
    let s3 := { s2 with timerInterval := some ms }
    let (statusMsg, s4) := broadcastStatusMsg (some ms) s3
    ({ success := true, message := "Stream started", interval := some ms }, s4,
      tickMsgs ++ [statusMsg])

/-- `stopStream` (index.js lines 307-320): no-op when not streaming;
otherwise clear the flag and the timer and broadcast a status update. -/
def stopStream (s : ServerState) : StopResult × ServerState × List WireMsg :=
  if s.isStreaming then
    let s1 := { s with isStreaming := false, timerInterval := none }
    let (statusMsg, s2) := broadcastStatusMsg none s1
    ({ success := true, message := "Stream stopped" }, s2, [statusMsg])
  else
    ({ success := false, message := "Stream is not running" }, s, [])

/-- The `GET /api/start-stream` route (index.js lines 364-376):
`parseInt(req.query.interval) || config.interval`, then `startStream`. -/
def startStreamRoute (q : Option String) (eff : TickEffects) (s : ServerState) :
    StartResult × ServerState × List WireMsg :=
  let interval :=
    match q with
    | none => s.config.interval
    | some qs =>
        match parseIntStr qs with
        | none => s.config.interval
        | some n => if n = 0 then s.config.interval else n
  startStream interval eff s

/-- The WebSocket connection handler (index.js lines 249-262): resolve the
provider summary, then send the new subscriber one `status` message with
the current run flag and interval. -/
def onConnection (s : ServerState) : WireMsg × ServerState :=
  let (p, s1) := ensureCurrentProviderInfo s
  (.status s1.isStreaming s1.config.interval p, s1)

/-- A live WebSocket connection as the hub observes it at publish time:
its identity (the `Set` of connections holds distinct objects), whether
`readyState === 1`, and whether a send on it fails (surfacing through the
transport's `error` event). -/
structure Subscriber where
  id : Nat
  isOpen : Bool
  sendFails : Bool
  deriving Repr, DecidableEq

/-- What one send attempt inside `broadcast` (index.js lines 276-283)
does to one subscriber: connections with `readyState !== 1` are skipped. -/
inductive SendOutcome where
  | sent
  | failed
  | skipped
  deriving Repr, DecidableEq

/-- The per-subscriber behaviour of the `broadcast` loop. -/
def attemptSend (c : Subscriber) : SendOutcome :=
  if c.isOpen then (if c.sendFails then .failed else .sent) else .skipped

/-- The `broadcast` loop: one send attempt per current subscriber. -/
def broadcastWs (clients : List Subscriber) : List (Subscriber × SendOutcome) :=
  clients.map fun c => (c, attemptSend c)

/-- The `close`/`error` handlers (index.js lines 264-272):
`connectedClients.delete(ws)`. -/
def removeClient (clients : List Subscriber) (i : Nat) : List Subscriber :=
  clients.filter (fun c => c.id ≠ i)

/-- The ids that actually receive the published message. -/
def deliveredIds (clients : List Subscriber) : List Nat :=
  (broadcastWs clients).filterMap fun x =>
    match x.2 with
    | .sent => some x.1.id
    | _ => none

/-- One publish round: the `broadcast` loop followed by the transport
firing `error` for each failed send and `close` for each non-open
connection, each handled by the source's removal handlers. -/
def publishStep (clients : List Subscriber) : List Nat × List Subscriber :=
  let toRemove := (broadcastWs clients).filterMap fun x =>
    match x.2 with
    | .sent => none
    | _ => some x.1
  (deliveredIds clients, toRemove.foldl (fun acc c => removeClient acc c.id) clients)

/-- The `aiProvider` body of `POST /api/config`, as
`saveAIProviderSettings` (postgres.js lines 158-211) consumes it. -/
structure ProviderPayload where
  activeProvider : Option String
  providers : List (String × ProviderConfig)
  deriving Repr, DecidableEq

/-- Falsy provider fields are stored as NULL (`config.apiUrl || null`). -/
def normalizeCfg (c : ProviderConfig) : ProviderConfig :=
  ⟨truthyStr c.modelName, truthyStr c.apiUrl, truthyStr c.apiKey⟩

/-- `saveAIProviderSettings` (postgres.js lines 158-211): validate the
payload, then inside one transaction deactivate every row and upsert the
payload's rows, marking active exactly the row matching `activeProvider`;
any failure (a validation error or an injected query error) rolls the
transaction back, leaving the store unchanged.  On success it returns the
re-read settings: the merged rows, with `activeProvider` surviving only if
the payload contained a row for it. -/
def saveAIProviderSettings (dbError : Option String) (payload : ProviderPayload)
    (store : ProviderSettings) : Except String ProviderSettings :=
  match truthyStr payload.activeProvider with
  | none => .error "activeProvider is required"
  | some ap =>
      if payload.providers.isEmpty then .error "providers payload is required"
      else
        match payload.providers.find? (fun e => (truthyStr e.2.modelName).isNone) with
        | some e => .error ("modelName is required for provider " ++ e.1)
        | none =>
            match dbError with
            | some m => .error m
            | none =>
                let merged := payload.providers.foldl
                  (fun acc e => setKey acc e.1 (normalizeCfg e.2)) store.providers
                .ok { activeProvider :=
                        if (payload.providers.lookup ap).isSome then some ap else none,
                      providers := merged }

/-- The body of `POST /api/config`. -/
structure ConfigRequest where
  interval : Option Int
  template : Option String
  aiProvider : Option ProviderPayload
  appConfig : Option (List (String × String))
  deriving Repr, DecidableEq

/-- Injected persistence failures for the configure route. -/
structure StoreFailures where
  saveDbError : Option String
  upsertDbError : Option String
  deriving Repr, DecidableEq

/-- The HTTP response of `POST /api/config`: 400 on validation failure,
500 when a caught exception reaches the route's catch, 200 with the
applied config otherwise. -/
inductive ConfigResponse where
  | badRequest (message : String)
  | serverError (message : String)
  | success (interval : Int) (template : String)
  deriving Repr, DecidableEq

/-- Lines 453-495 of index.js: the provider-settings save (or read), the
app-config upsert (or read), the variation-limit and provider-summary cache
updates, and the final status broadcast.  `msgs0` are broadcasts already
emitted by an interval restart earlier in the request. -/
def postConfigCore (req : ConfigRequest) (f : StoreFailures)
    (s1 : ServerState) (msgs0 : List WireMsg) :
    ConfigResponse × ServerState × List WireMsg :=
  let saved : Except String (ProviderSettings × ServerState) :=
    match req.aiProvider with
    | some payload =>
        match saveAIProviderSettings f.saveDbError payload s1.aiSettings with
        | .error m => .error m
        | .ok ns => .ok (ns, { s1 with aiSettings := ns })
    | none => .ok (s1.aiSettings, s1)
  match saved with
  | .error m => (.serverError m, s1, msgs0)
  | .ok (providerSettings, s2) =>
      let upserted : Except String (AppConfig × ServerState) :=
        match req.appConfig with
        | some payload =>
            let up :=
              match payload.lookup "ERROR_VARIATION_LIMIT" with
              | some v => setKey payload "ERROR_VARIATION_LIMIT"
                  (toString (clampVariationLimit (.str v)))
              | none => payload
            match f.upsertDbError with
            | some m => .error m
            | none =>
                let newAppCfg := up.foldl (fun acc kv => setKey acc kv.1 kv.2) s2.appConfig
                .ok (newAppCfg, { s2 with appConfig := newAppCfg })
        | none => .ok (s2.appConfig, s2)
      match upserted with
      | .error m => (.serverError m, s2, msgs0)
      | .ok (persisted, s3) =>
          let s4 := { s3 with currentVariationLimit :=
            match persisted.lookup "ERROR_VARIATION_LIMIT" with
            | some v => clampVariationLimit (.str v)
            | none => clampVariationLimit (.num s3.currentVariationLimit) }
          let s5 :=
            match truthyStr providerSettings.activeProvider with
            | some active =>
                let mn := (jsOr
                  ((providerSettings.providers.lookup active).bind (fun c => c.modelName))
                  (some (if active = "gemini" then FALLBACK_GEMINI_MODEL
                         else FALLBACK_OLLAMA_MODEL))).getD ""
                { s4 with currentProviderInfo := some ⟨active, mn⟩ }
            | none => (ensureCurrentProviderInfo s4).2
          let (statusMsg, s6) := broadcastStatusMsg none s5
          (.success s6.config.interval s6.config.template, s6, msgs0 ++ [statusMsg])

/-- `POST /api/config` (index.js lines 430-513): validate and apply the
interval (restarting a running stream), apply the template, then run the
persistence and cache-update stage. -/
def postConfig (req : ConfigRequest) (f : StoreFailures) (eff : TickEffects)
    (s : ServerState) : ConfigResponse × ServerState × List WireMsg :=
  let staged : Option (ServerState × List WireMsg) :=
    match req.interval with
    | some i =>
        if i < 1000 ∨ 10000 < i then none
        else
          let sInt := { s with config := { s.config with interval := i } }
          if sInt.isStreaming then
            let (_, sStopped, m1) := stopStream sInt
            let (_, sStarted, m2) := startStream i eff sStopped
            some (sStarted, m1 ++ m2)
          else some (sInt, [])
    | none => some (s, [])
  match staged with
  | none =>
      (.badRequest "Interval must be between 1000ms (1s) and 10000ms (10s)", s, [])
  | some (s0, msgs0) =>
      let s1 :=
        match req.template with
        | some t => { s0 with config := { s0.config with template := t } }
        | none => s0
      postConfigCore req f s1 msgs0

/-! ### Pure views of the resolver, and formalised claim statements -/

/-- The environment-fallback tail of the selection ladder. -/
def fallbackChoice (env : Env) : ProviderChoice :=
  match truthyStr env.GEMINI_API_KEY with
  | some key => .fallbackGemini key
  | none => .noneConfigured

/-- The selection ladder as a pure function of everything it reads. -/
def selectChoice (ai : ProviderSettings) (ac : AppConfig) (env : Env) : ProviderChoice :=
  match truthyStr ai.activeProvider with
  | some p => .stored p
  | none =>
      match truthyStr (ac.lookup "ACTIVE_PROVIDER") with
      | some ap =>
          if (ai.providers.lookup ap).isSome then .stored ap
          else fallbackChoice env
      | none => fallbackChoice env

/-- The result (first component) of `resolveActiveAIProviderConfig` as a
pure function of the stored settings, the app config and the environment. -/
def resolveFst (ai : ProviderSettings) (ac : AppConfig) (env : Env) :
    Except String ResolvedProvider :=
  match selectChoice ai ac env with
  | .stored p => storedResolution p ai.providers env
  | .fallbackGemini key =>
      .ok ⟨"gemini", FALLBACK_GEMINI_MODEL, FALLBACK_GEMINI_API_URL, some key⟩
  | .noneConfigured => .error "No AI provider configured. Please configure one in Settings."

/-- Layers 3-4 of claim C1, following the claim's words. -/
def claimedLayer34 (s : ServerState) : ProviderChoice :=
  fallbackChoice s.env

/-- Layer 2 of claim C1, following the claim's words: the persisted
`ACTIVE_PROVIDER`, used when a matching provider entry exists, else fall
through. -/
def claimedLayer2 (s : ServerState) : ProviderChoice :=
  match truthyStr (s.appConfig.lookup "ACTIVE_PROVIDER") with
  | some ap =>
      if (s.aiSettings.providers.lookup ap).isSome then .stored ap else claimedLayer34 s
  | none => claimedLayer34 s

/-- The layered choice exactly as claim C1 words it: an active provider is
chosen only when its ProviderConfig entry exists, and an unsatisfied layer
falls through to the next one. -/
def claimedLayeredChoice (s : ServerState) : ProviderChoice :=
  match truthyStr s.aiSettings.activeProvider with
  | some p =>
      if (s.aiSettings.providers.lookup p).isSome then .stored p else claimedLayer2 s
  | none => claimedLayer2 s

/-- Claim C1 as stated: resolution follows the claimed layered choice, and
the final layer fails with the "no provider configured" error. -/
def layeredFallbackClaim : Prop :=
  ∀ s : ServerState,
    (selectProvider s).1 = claimedLayeredChoice s ∧
    ((selectProvider s).1 = .noneConfigured →
      (resolveActiveAIProviderConfig s).1 =
        .error "No AI provider configured. Please configure one in Settings.")

/-- Claim C2 as stated: whenever configure fails — with a validation error
or a persistence error — no part of the configuration state changes. -/
def configAtomicityClaim : Prop :=
  ∀ (req : ConfigRequest) (f : StoreFailures) (eff : TickEffects) (s : ServerState),
    ∀ m, ((postConfig req f eff s).1 = .badRequest m ∨
          (postConfig req f eff s).1 = .serverError m) →
      (postConfig req f eff s).2.1 = s

/-- The first half of claim C4 as stated: the persistence write never
throws to its caller. -/
def writeNeverThrowsClaim : Prop :=
  ∀ (dbError : Option String) (log : EventRecord),
    ∃ n, insertErrorLog dbError log = Except.ok n

/-- Claim C7 as stated: two resolutions in a row, the second starting from
the state the first one wrote back, return the same descriptor. -/
def resolutionDeterminismClaim : Prop :=
  ∀ (s : ServerState) (d : ResolvedProvider),
    (resolveActiveAIProviderConfig s).1 = .ok d →
    (resolveActiveAIProviderConfig (resolveActiveAIProviderConfig s).2).1 = .ok d

/-- JavaScript `i || d` on integral numbers: `0` is falsy. -/
def jsIntOr (i d : Int) : Int := if i = 0 then d else i

/-- The timer period `GET /api/start-stream` ends up using: the parsed
query override, with the route's and `startStream`'s `|| config.interval`
fallbacks. -/
def routeEffectiveInterval (q : Option String) (s : ServerState) : Int :=
  let i :=
    match q with
    | none => s.config.interval
    | some qs =>
        match parseIntStr qs with
        | none => s.config.interval
        | some n => if n = 0 then s.config.interval else n
  jsIntOr i s.config.interval

/-- Claim C10 as stated: every positive parsed override is used verbatim,
and a zero, negative or unparseable override falls back to the stored
config interval. -/
def startOverrideClaim : Prop :=
  (∀ (n : Int) (eff : TickEffects) (s : ServerState), 0 < n → s.isStreaming = false →
     (startStreamRoute (some (toString n)) eff s).1.success = true ∧
     (startStreamRoute (some (toString n)) eff s).1.interval = some n ∧
     (startStreamRoute (some (toString n)) eff s).2.1.timerInterval = some n) ∧
  (∀ (qs : String) (eff : TickEffects) (s : ServerState), s.isStreaming = false →
     (parseIntStr qs = none ∨ ∃ n : Int, parseIntStr qs = some n ∧ n ≤ 0) →
     (startStreamRoute (some qs) eff s).1.interval = some s.config.interval)

/-! ### Concrete states for counterexamples and witnesses -/

/-- A fresh server state: default config, nothing stored, empty env. -/
def baseState : ServerState :=
  { config := ⟨5000, "tpl"⟩, isStreaming := false, timerInterval := none,
    currentProviderInfo := none, currentVariationLimit := 10,
    aiSettings := ⟨none, []⟩, appConfig := [], env := ⟨none, none⟩ }

/-- A tick whose backend produces nothing and whose insert succeeds. -/
def quietTick : TickEffects := ⟨.ok none, none⟩

/-- Stored settings marking `foo` active without a config entry, while the
app config names `bar`, which does have an entry. -/
def c1State : ServerState :=
  { baseState with
      aiSettings := ⟨some "foo", [("bar", ⟨some "m", some "u", some "k"⟩)]⟩,
      appConfig := [("ACTIVE_PROVIDER", "bar")] }

/-- No active provider and no persisted `ACTIVE_PROVIDER`, but an inactive
`gemini` row with a custom model, and `GEMINI_API_KEY` set. -/
def c7State : ServerState :=
  { baseState with
      aiSettings := ⟨none, [("gemini", ⟨some "custom-model", none, none⟩)]⟩,
      env := ⟨some "k", none⟩ }

/-- A configure request carrying a valid interval and a valid provider
payload. -/
def c2Request : ConfigRequest :=
  { interval := some 2000, template := none,
    aiProvider := some ⟨some "gemini", [("gemini", ⟨some "m", none, none⟩)]⟩,
    appConfig := none }

/-- A state whose app config persists a variation limit of 15. -/
def w8State : ServerState :=
  { baseState with appConfig := [("ERROR_VARIATION_LIMIT", "15")] }

/-- A state with only the environment credential set. -/
def envState : ServerState :=
  { baseState with env := ⟨some "k", none⟩ }

/-- A tick whose backend call throws. -/
def boomTick : TickEffects := ⟨.error "boom", none⟩

/-- A tick that generates a record but whose database insert fails. -/
def dbFailTick : TickEffects := ⟨.ok (some "LOG"), some "db down"⟩

/-- A state that is currently streaming. -/
def streamingState : ServerState :=
  { baseState with isStreaming := true, timerInterval := some 5000 }

/-- Stored settings with a complete active ollama entry. -/
def activeOllamaState : ServerState :=
  { baseState with aiSettings := ⟨some "ollama", [("ollama", ⟨some "m", some "u", none⟩)]⟩ }

/-- Three subscribers: one healthy, one closed, one whose send fails. -/
def sampleSubs : List Subscriber :=
  [⟨1, true, false⟩, ⟨2, false, false⟩, ⟨3, true, true⟩]

/-! ### Structural lemmas -/

theorem truthyStr_eq_some {o : Option String} {v : String}
    (h : truthyStr o = some v) : o = some v ∧ v ≠ "" := by
  cases o with
  | none => simp [truthyStr] at h
  | some w =>
      by_cases hw : w = ""
      · simp [truthyStr, hw] at h
      · simp [truthyStr, hw] at h
        exact ⟨by rw [h], h ▸ hw⟩

theorem truthyStr_some_ne {v : String} (hv : v ≠ "") :
    truthyStr (some v) = some v := by
  simp [truthyStr, hv]

theorem lookup_setKey {α : Type} (m : List (String × α)) (k : String) (v : α)
    (q : String) :
    (setKey m k v).lookup q = if q = k then some v else m.lookup q := by
  induction m with
  | nil =>
      by_cases hq : q = k
      · simp [setKey, List.lookup_cons, hq]
      · simp [setKey, List.lookup_cons, hq, beq_false_of_ne hq]
  | cons e rest ih =>
      obtain ⟨k0, v0⟩ := e
      by_cases h0 : k0 = k
      · subst h0
        by_cases hq : q = k0
        · simp [setKey, List.lookup_cons, hq]
        · simp [setKey, List.lookup_cons, hq, beq_false_of_ne hq]
      · have h0' : k0 ≠ k := h0
        by_cases hq : q = k0
        · subst hq
          have hk : q ≠ k := fun h => h0 (h ▸ rfl)
          simp [setKey, h0, List.lookup_cons, hk]
        · simp [setKey, h0, List.lookup_cons, beq_false_of_ne hq, ih]

theorem selectProvider_snd (s : ServerState) :
    ∃ l, (selectProvider s).2 = { s with currentVariationLimit := l } := by
  unfold selectProvider
  rcases truthyStr s.aiSettings.activeProvider with _ | p
  · dsimp only
    rcases truthyStr (s.appConfig.lookup "ERROR_VARIATION_LIMIT") with _ | v
    · dsimp only
      split
      · exact ⟨s.currentVariationLimit, rfl⟩
      · split <;> exact ⟨s.currentVariationLimit, rfl⟩
    · dsimp only
      split
      · exact ⟨_, rfl⟩
      · split <;> exact ⟨_, rfl⟩
  · exact ⟨s.currentVariationLimit, rfl⟩

theorem selectProvider_fst (s : ServerState) :
    (selectProvider s).1 = selectChoice s.aiSettings s.appConfig s.env := by
  unfold selectProvider selectChoice fallbackChoice
  rcases truthyStr s.aiSettings.activeProvider with _ | p
  · dsimp only
    rcases hac : truthyStr (s.appConfig.lookup "ACTIVE_PROVIDER") with _ | ap
    · dsimp only
      rcases truthyStr (s.appConfig.lookup "ERROR_VARIATION_LIMIT") with _ | v <;>
        dsimp only <;>
        rcases truthyStr s.env.GEMINI_API_KEY with _ | key <;> rfl
    · dsimp only
      by_cases hl : (s.aiSettings.providers.lookup ap).isSome <;>
        simp only [hl, if_true, if_false, Bool.false_eq_true] <;>
        first
        | rfl
        | (rcases truthyStr (s.appConfig.lookup "ERROR_VARIATION_LIMIT") with _ | v <;>
            dsimp only <;>
            first
            | rfl
            | (rcases truthyStr s.env.GEMINI_API_KEY with _ | key <;> rfl))
  · rfl

theorem resolve_snd (s : ServerState) :
    ∃ l cpi ac, (resolveActiveAIProviderConfig s).2 =
      { s with currentVariationLimit := l, currentProviderInfo := cpi, appConfig := ac } := by
  obtain ⟨l, hsel⟩ := selectProvider_snd s
  unfold resolveActiveAIProviderConfig
  rcases hsp : selectProvider s with ⟨c, s1⟩
  have hs1 : s1 = { s with currentVariationLimit := l } := by
    rw [hsp] at hsel; exact hsel
  subst hs1
  cases c with
  | noneConfigured => exact ⟨l, s.currentProviderInfo, s.appConfig, rfl⟩
  | fallbackGemini key => exact ⟨_, _, _, rfl⟩
  | stored p =>
      dsimp only
      rcases storedResolution p _ _ with m | r
      · exact ⟨l, s.currentProviderInfo, s.appConfig, rfl⟩
      · exact ⟨l, _, _, rfl⟩

theorem resolve_preserves (s : ServerState) :
    (resolveActiveAIProviderConfig s).2.aiSettings = s.aiSettings ∧
    (resolveActiveAIProviderConfig s).2.env = s.env ∧
    (resolveActiveAIProviderConfig s).2.config = s.config ∧
    (resolveActiveAIProviderConfig s).2.isStreaming = s.isStreaming ∧
    (resolveActiveAIProviderConfig s).2.timerInterval = s.timerInterval := by
  obtain ⟨l, cpi, ac, h⟩ := resolve_snd s
  rw [h]
  exact ⟨rfl, rfl, rfl, rfl, rfl⟩

theorem resolve_fst_eq (s : ServerState) :
    (resolveActiveAIProviderConfig s).1 = resolveFst s.aiSettings s.appConfig s.env := by
  obtain ⟨l, hsel⟩ := selectProvider_snd s
  have hfst := selectProvider_fst s
  unfold resolveActiveAIProviderConfig resolveFst
  rcases hsp : selectProvider s with ⟨c, s1⟩
  rw [hsp] at hsel hfst
  dsimp only at hsel hfst
  subst hsel
  rw [← hfst]
  cases c with
  | noneConfigured => rfl
  | fallbackGemini key => rfl
  | stored p =>
      dsimp only
      rcases storedResolution p s.aiSettings.providers s.env with m | r <;> rfl

theorem resolve_appConfig_stored (s : ServerState) (p : String)
    (h : selectChoice s.aiSettings s.appConfig s.env = .stored p) :
    (resolveActiveAIProviderConfig s).2.appConfig = s.appConfig ∨
    (resolveActiveAIProviderConfig s).2.appConfig =
      setKey s.appConfig "ACTIVE_PROVIDER" p := by
  obtain ⟨l, hsel⟩ := selectProvider_snd s
  have hfst := selectProvider_fst s
  unfold resolveActiveAIProviderConfig
  rcases hsp : selectProvider s with ⟨c, s1⟩
  rw [hsp] at hsel hfst
  dsimp only at hsel hfst
  subst hsel
  have hc : c = .stored p := hfst.trans h
  subst hc
  dsimp only
  rcases storedResolution p _ _ with m | r
  · exact Or.inl rfl
  · exact Or.inr rfl

theorem resolve_appConfig_fallback (s : ServerState) (key : String)
    (h : selectChoice s.aiSettings s.appConfig s.env = .fallbackGemini key) :
    (resolveActiveAIProviderConfig s).2.appConfig =
      setKey s.appConfig "ACTIVE_PROVIDER" "gemini" := by
  obtain ⟨l, hsel⟩ := selectProvider_snd s
  have hfst := selectProvider_fst s
  unfold resolveActiveAIProviderConfig
  rcases hsp : selectProvider s with ⟨c, s1⟩
  rw [hsp] at hsel hfst
  dsimp only at hsel hfst
  subst hsel
  have hc : c = .fallbackGemini key := hfst.trans h
  subst hc
  rfl

theorem resolve_appConfig_none (s : ServerState)
    (h : selectChoice s.aiSettings s.appConfig s.env = .noneConfigured) :
    (resolveActiveAIProviderConfig s).2.appConfig = s.appConfig := by
  obtain ⟨l, hsel⟩ := selectProvider_snd s
  have hfst := selectProvider_fst s
  unfold resolveActiveAIProviderConfig
  rcases hsp : selectProvider s with ⟨c, s1⟩
  rw [hsp] at hsel hfst
  dsimp only at hsel hfst
  subst hsel
  have hc : c = .noneConfigured := hfst.trans h
  subst hc
  rfl

theorem ensureCompute_snd (s : ServerState) :
    ∃ cpi l, (ensureCompute s).2 =
      { s with currentProviderInfo := cpi, currentVariationLimit := l } := by
  obtain ⟨l, hsel⟩ := selectProvider_snd s
  unfold ensureCompute
  rcases hsp : selectProvider s with ⟨c, s1⟩
  rw [hsp] at hsel
  dsimp only at hsel
  subst hsel
  cases c with
  | noneConfigured => exact ⟨s.currentProviderInfo, l, rfl⟩
  | fallbackGemini key => exact ⟨_, _, rfl⟩
  | stored p => exact ⟨_, _, rfl⟩

theorem ensure_snd (s : ServerState) :
    ∃ cpi l, (ensureCurrentProviderInfo s).2 =
      { s with currentProviderInfo := cpi, currentVariationLimit := l } := by
  unfold ensureCurrentProviderInfo
  rcases s.currentProviderInfo with _ | info
  · exact ensureCompute_snd s
  · dsimp only
    by_cases h : info.type = ""
    · simp only [h, if_true]
      exact ensureCompute_snd s
    · simp only [h, if_false]
      exact ⟨s.currentProviderInfo, s.currentVariationLimit, rfl⟩

theorem ensure_preserves (s : ServerState) :
    (ensureCurrentProviderInfo s).2.isStreaming = s.isStreaming ∧
    (ensureCurrentProviderInfo s).2.config = s.config ∧
    (ensureCurrentProviderInfo s).2.timerInterval = s.timerInterval ∧
    (ensureCurrentProviderInfo s).2.appConfig = s.appConfig ∧
    (ensureCurrentProviderInfo s).2.aiSettings = s.aiSettings ∧
    (ensureCurrentProviderInfo s).2.env = s.env := by
  obtain ⟨cpi, l, h⟩ := ensure_snd s
  rw [h]
  exact ⟨rfl, rfl, rfl, rfl, rfl, rfl⟩

theorem tickBody_snd (eff : TickEffects) (s : ServerState) :
    ∃ l cpi ac, (tickBody eff s).2 =
      { s with currentVariationLimit := l, currentProviderInfo := cpi, appConfig := ac } := by
  obtain ⟨backend, dbe⟩ := eff
  obtain ⟨l, cpi, ac, hres⟩ := resolve_snd s
  unfold tickBody
  rcases hr : resolveActiveAIProviderConfig s with ⟨res, s1⟩
  rw [hr] at hres
  dsimp only at hres
  subst hres
  cases res with
  | error m => exact ⟨l, cpi, ac, rfl⟩
  | ok d =>
      rcases backend with m | log
      · exact ⟨_, _, _, rfl⟩
      · rcases log with _ | log
        · exact ⟨_, _, _, rfl⟩
        · rcases dbe with _ | e <;> exact ⟨_, _, _, rfl⟩

theorem generateAndBroadcast_snd (eff : TickEffects) (s : ServerState) :
    ∃ l cpi ac, (generateAndBroadcast eff s).1 =
      { s with currentVariationLimit := l, currentProviderInfo := cpi, appConfig := ac } := by
  obtain ⟨l, cpi, ac, hb⟩ := tickBody_snd eff s
  unfold generateAndBroadcast
  rcases ht : tickBody eff s with ⟨res, s1⟩
  rw [ht] at hb
  dsimp only at hb
  subst hb
  cases res with
  | error m => exact ⟨l, cpi, ac, rfl⟩
  | ok msgs => exact ⟨l, cpi, ac, rfl⟩

theorem tick_preserves (eff : TickEffects) (s : ServerState) :
    (generateAndBroadcast eff s).1.isStreaming = s.isStreaming ∧
    (generateAndBroadcast eff s).1.timerInterval = s.timerInterval ∧
    (generateAndBroadcast eff s).1.config = s.config ∧
    (generateAndBroadcast eff s).1.aiSettings = s.aiSettings ∧
    (generateAndBroadcast eff s).1.env = s.env := by
  obtain ⟨l, cpi, ac, h⟩ := generateAndBroadcast_snd eff s
  rw [h]
  exact ⟨rfl, rfl, rfl, rfl, rfl⟩

theorem selectProvider_varlimit (s : ServerState) (v : String)
    (h1 : truthyStr s.aiSettings.activeProvider = none)
    (h2 : truthyStr (s.appConfig.lookup "ERROR_VARIATION_LIMIT") = some v) :
    (selectProvider s).2 =
      { s with currentVariationLimit := clampVariationLimit (.str v) } := by
  unfold selectProvider
  rw [h1]
  dsimp only
  rw [h2]
  split
  · rfl
  · split <;> rfl

theorem resolve_varlimit (s : ServerState) (v : String)
    (h1 : truthyStr s.aiSettings.activeProvider = none)
    (h2 : truthyStr (s.appConfig.lookup "ERROR_VARIATION_LIMIT") = some v) :
    (resolveActiveAIProviderConfig s).2.currentVariationLimit =
      clampVariationLimit (.str v) := by
  have hsel := selectProvider_varlimit s v h1 h2
  unfold resolveActiveAIProviderConfig
  rcases hsp : selectProvider s with ⟨c, s1⟩
  rw [hsp] at hsel
  dsimp only at hsel
  subst hsel
  cases c with
  | noneConfigured => rfl
  | stored p =>
      dsimp only
      rcases storedResolution p _ _ with m | r <;> rfl
  | fallbackGemini key =>
      dsimp only
      rw [lookup_setKey, if_neg (by decide)]
      rw [(truthyStr_eq_some h2).1]
      rfl

theorem fallbackChoice_inv {env : Env} {key : String}
    (h : fallbackChoice env = .fallbackGemini key) :
    truthyStr env.GEMINI_API_KEY = some key := by
  unfold fallbackChoice at h
  rcases hk : truthyStr env.GEMINI_API_KEY with _ | k
  · rw [hk] at h; cases h
  · rw [hk] at h
    injection h with hkey
    rw [hkey]

theorem selectChoice_fallback_inv {ai : ProviderSettings} {ac : AppConfig}
    {env : Env} {key : String}
    (h : selectChoice ai ac env = .fallbackGemini key) :
    truthyStr env.GEMINI_API_KEY = some key := by
  unfold selectChoice at h
  rcases ha : truthyStr ai.activeProvider with _ | p
  · rw [ha] at h
    dsimp only at h
    rcases hac : truthyStr (ac.lookup "ACTIVE_PROVIDER") with _ | ap
    · rw [hac] at h
      exact fallbackChoice_inv h
    · rw [hac] at h
      dsimp only at h
      by_cases hl : (ai.providers.lookup ap).isSome
      · rw [if_pos hl] at h; cases h
      · rw [if_neg hl] at h
        exact fallbackChoice_inv h
  · rw [ha] at h
    cases h

theorem broadcastStatusMsg_snd (o : Option Int) (s : ServerState) :
    ∃ cpi l, (broadcastStatusMsg o s).2 =
      { s with currentProviderInfo := cpi, currentVariationLimit := l } := by
  obtain ⟨cpi, l, h⟩ := ensure_snd s
  unfold broadcastStatusMsg
  rcases he : ensureCurrentProviderInfo s with ⟨p, s1⟩
  rw [he] at h
  dsimp only at h
  subst h
  exact ⟨cpi, l, rfl⟩

theorem broadcastStatusMsg_preserves (o : Option Int) (s : ServerState) :
    (broadcastStatusMsg o s).2.isStreaming = s.isStreaming ∧
    (broadcastStatusMsg o s).2.config = s.config ∧
    (broadcastStatusMsg o s).2.timerInterval = s.timerInterval ∧
    (broadcastStatusMsg o s).2.aiSettings = s.aiSettings ∧
    (broadcastStatusMsg o s).2.appConfig = s.appConfig ∧
    (broadcastStatusMsg o s).2.env = s.env := by
  obtain ⟨cpi, l, h⟩ := broadcastStatusMsg_snd o s
  rw [h]
  exact ⟨rfl, rfl, rfl, rfl, rfl, rfl⟩

theorem stopStream_isStreaming (s : ServerState) :
    (stopStream s).2.1.isStreaming = false := by
  unfold stopStream
  by_cases h : s.isStreaming = true
  · rw [if_pos h]
    dsimp only
    rcases hm : broadcastStatusMsg none { s with isStreaming := false, timerInterval := none }
      with ⟨msg, s2⟩
    have hp := (broadcastStatusMsg_preserves none
      { s with isStreaming := false, timerInterval := none }).1
    rw [hm] at hp
    exact hp
  · rw [if_neg h]
    exact Bool.not_eq_true s.isStreaming |>.mp h

theorem stopStream_config (s : ServerState) :
    (stopStream s).2.1.config = s.config := by
  unfold stopStream
  by_cases h : s.isStreaming = true
  · rw [if_pos h]
    dsimp only
    rcases hm : broadcastStatusMsg none { s with isStreaming := false, timerInterval := none }
      with ⟨msg, s2⟩
    have hp := (broadcastStatusMsg_preserves none
      { s with isStreaming := false, timerInterval := none }).2.1
    rw [hm] at hp
    exact hp
  · rw [if_neg h]

theorem startStream_isStreaming (i : Int) (eff : TickEffects) (s : ServerState) :
    (startStream i eff s).2.1.isStreaming = true := by
  unfold startStream
  by_cases h : s.isStreaming = true
  · rw [if_pos h]
    exact h
  · rw [if_neg h]
    dsimp only
    generalize (if i = 0 then s.config.interval else i) = ms
    rcases hgb : generateAndBroadcast eff { s with isStreaming := true } with ⟨s2, tickMsgs⟩
    dsimp only
    show (broadcastStatusMsg (some ms) { s2 with timerInterval := some ms }).2.isStreaming = true
    rw [(broadcastStatusMsg_preserves (some ms) { s2 with timerInterval := some ms }).1]
    show s2.isStreaming = true
    have hg := (tick_preserves eff { s with isStreaming := true }).1
    rw [hgb] at hg
    exact hg

theorem startStream_noop {s : ServerState} (i : Int) (eff : TickEffects)
    (h : s.isStreaming = true) :
    startStream i eff s =
      ({ success := false, message := "Stream is already running", interval := none },
       s, []) := by
  unfold startStream
  rw [if_pos h]

theorem stopStream_noop {s : ServerState} (h : s.isStreaming = false) :
    stopStream s =
      ({ success := false, message := "Stream is not running" }, s, []) := by
  unfold stopStream
  rw [if_neg (by simp [h])]

/-! ### Claim theorems -/

/-- C6: `start` while Running returns a false success flag (the source's
`success: false` realising the spec's `started: false`) and leaves the run
state, timer and configuration — the whole state — unchanged, emitting no
broadcast; `stop` while Stopped likewise returns a false success flag and
changes nothing; hence a second consecutive `start` has no effect. -/
theorem start_stop_idempotent_noop :
    (∀ (i : Int) (eff : TickEffects) (s : ServerState), s.isStreaming = true →
       startStream i eff s =
         ({ success := false, message := "Stream is already running", interval := none },
          s, [])) ∧
    (∀ s : ServerState, s.isStreaming = false →
       stopStream s =
         ({ success := false, message := "Stream is not running" }, s, [])) ∧
    (∀ (i j : Int) (e1 e2 : TickEffects) (s : ServerState),
       startStream j e2 (startStream i e1 s).2.1 =
         ({ success := false, message := "Stream is already running", interval := none },
          (startStream i e1 s).2.1, [])) := by
  refine ⟨?_, ?_, ?_⟩
  · intro i eff s h
    exact startStream_noop i eff h
  · intro s h
    exact stopStream_noop h
  · intro i j e1 e2 s
    exact startStream_noop j e2 (startStream_isStreaming i e1 s)

/-- Witness for C6 at concrete states: a running stream refuses `start`,
a stopped one refuses `stop`, both unchanged. -/
theorem start_stop_idempotent_noop_witness :
    startStream 3000 quietTick streamingState =
      ({ success := false, message := "Stream is already running", interval := none },
       streamingState, []) ∧
    stopStream baseState =
      ({ success := false, message := "Stream is not running" }, baseState, []) :=
  ⟨start_stop_idempotent_noop.1 3000 quietTick streamingState rfl,
   start_stop_idempotent_noop.2.1 baseState rfl⟩

/-- C8: `clampVariationLimit` maps 0 to 1, 15 to 10 and the unparseable
string "abc" to the default 10; every parsed numeric input is clamped into
[1, 10], every unparseable input yields the default 10, the result always
lies in [1, 10], and during resolution a truthy persisted variation limit
is adopted exactly as this clamp of its stored string. -/
theorem variation_limit_normalization :
    clampVariationLimit (.num 0) = 1 ∧
    clampVariationLimit (.num 15) = 10 ∧
    clampVariationLimit (.str "abc") = 10 ∧
    (∀ v n, parseIntJs v = some n → clampVariationLimit v = min 10 (max 1 n)) ∧
    (∀ v, parseIntJs v = none → clampVariationLimit v = 10) ∧
    (∀ v, 1 ≤ clampVariationLimit v ∧ clampVariationLimit v ≤ 10) ∧
    (∀ (s : ServerState) (v : String),
      truthyStr s.aiSettings.activeProvider = none →
      truthyStr (s.appConfig.lookup "ERROR_VARIATION_LIMIT") = some v →
      (resolveActiveAIProviderConfig s).2.currentVariationLimit =
        clampVariationLimit (.str v)) := by
  refine ⟨by decide, by decide, by decide, ?_, ?_, ?_, resolve_varlimit⟩
  · intro v n h
    simp [clampVariationLimit, h, MAX_VARIATION_LIMIT, MIN_VARIATION_LIMIT]
  · intro v h
    simp [clampVariationLimit, h, DEFAULT_VARIATION_LIMIT]
  · intro v
    unfold clampVariationLimit
    rcases parseIntJs v with _ | n
    · exact ⟨by decide, by decide⟩
    · constructor
      · exact le_min (by decide) (le_max_left 1 n)
      · exact min_le_left _ _

/-- Witness for C8's conditional parts at concrete inputs: a numeric
parse, a failed parse, and the adoption of a stored limit of 15 (clamped
to 10) during resolution. -/
theorem variation_limit_normalization_witness :
    clampVariationLimit (.str "7") = min 10 (max 1 7) ∧
    clampVariationLimit .undefined = 10 ∧
    (resolveActiveAIProviderConfig w8State).2.currentVariationLimit =
      clampVariationLimit (.str "15") :=
  ⟨variation_limit_normalization.2.2.2.1 (.str "7") 7 (by decide),
   variation_limit_normalization.2.2.2.2.1 .undefined rfl,
   variation_limit_normalization.2.2.2.2.2.2 w8State "15" rfl rfl⟩

/-- C9: a newly connected subscriber immediately receives one `status`
message carrying the connect-time run flag, interval and resolved provider
summary; in particular connecting right after `stopStream` yields a
`status` message with `isStreaming: false`. -/
theorem connect_status_snapshot :
    ∀ s : ServerState,
      (onConnection s).1 =
        WireMsg.status s.isStreaming s.config.interval (ensureCurrentProviderInfo s).1 ∧
      (onConnection (stopStream s).2.1).1 =
        WireMsg.status false ((stopStream s).2.1).config.interval
          (ensureCurrentProviderInfo (stopStream s).2.1).1 := by
  have key : ∀ t : ServerState, (onConnection t).1 =
      WireMsg.status t.isStreaming t.config.interval (ensureCurrentProviderInfo t).1 := by
    intro t
    have h1 := (ensure_preserves t).1
    have h2 := (ensure_preserves t).2.1
    unfold onConnection
    rcases he : ensureCurrentProviderInfo t with ⟨p, t1⟩
    rw [he] at h1 h2
    dsimp only at h1 h2 ⊢
    rw [h1, h2]
  intro s
  refine ⟨key s, ?_⟩
  rw [key ((stopStream s).2.1), stopStream_isStreaming]

/-- C3: failures arising inside a tick before the broadcast step — the
resolver or the backend call throwing — are caught: the run flag and timer
are untouched by every tick, and a failing tick broadcasts exactly one
`error` message carrying the failure's message text (defaulted when empty)
and the provider summary known at that point. -/
theorem tick_failures_isolated :
    (∀ (eff : TickEffects) (s : ServerState),
       (generateAndBroadcast eff s).1.isStreaming = s.isStreaming ∧
       (generateAndBroadcast eff s).1.timerInterval = s.timerInterval) ∧
    (∀ (eff : TickEffects) (s : ServerState) (m : String),
       (tickBody eff s).1 = .error m →
       (generateAndBroadcast eff s).2 =
         [WireMsg.err (if m = "" then "Failed to generate error log" else m)
           ((tickBody eff s).2.currentProviderInfo)]) := by
  refine ⟨?_, ?_⟩
  · intro eff s
    exact ⟨(tick_preserves eff s).1, (tick_preserves eff s).2.1⟩
  · intro eff s m h
    unfold generateAndBroadcast
    rcases ht : tickBody eff s with ⟨res, s1⟩
    rw [ht] at h
    dsimp only at h
    subst h
    rfl

/-- Witness for C3: a backend failure on a resolvable state produces the
single `error` broadcast. -/
theorem tick_failures_isolated_witness :
    (generateAndBroadcast boomTick envState).2 =
      [WireMsg.err (if "boom" = "" then "Failed to generate error log" else "boom")
        ((tickBody boomTick envState).2.currentProviderInfo)] :=
  tick_failures_isolated.2 boomTick envState "boom" rfl

/-- C4 counterexample: `insertErrorLog` rethrows a database failure to its
caller instead of returning normally, refuting the never-throws reading. -/
theorem write_never_throws_cex : ¬ writeNeverThrowsClaim := by
  intro h
  obtain ⟨n, hn⟩ := h (some "connection refused") "\x7b\x7d"
  simp [insertErrorLog] at hn

/-- C4 (amended): `insertErrorLog` rethrows an insert failure, but its only
tick-time caller catches it inline, so a tick's entire outcome is
independent of the injected database error; a successfully generated
record is still broadcast as an event, and no tick touches the run flag or
the timer, so subsequent ticks proceed. -/
theorem persistence_failure_nonfatal :
    (∀ (backend : Except String (Option EventRecord)) (e1 e2 : Option String)
       (s : ServerState),
       generateAndBroadcast ⟨backend, e1⟩ s = generateAndBroadcast ⟨backend, e2⟩ s) ∧
    (∀ (eff : TickEffects) (s : ServerState) (log : EventRecord) (d : ResolvedProvider),
       eff.backendResult = .ok (some log) →
       (resolveActiveAIProviderConfig s).1 = .ok d →
       (generateAndBroadcast eff s).2 =
         [WireMsg.errorLog log ((generateAndBroadcast eff s).1.currentProviderInfo)]) ∧
    (∀ (eff : TickEffects) (s : ServerState),
       (generateAndBroadcast eff s).1.isStreaming = s.isStreaming ∧
       (generateAndBroadcast eff s).1.timerInterval = s.timerInterval) := by
  refine ⟨?_, ?_, ?_⟩
  · intro backend e1 e2 s
    unfold generateAndBroadcast tickBody
    rcases hr : resolveActiveAIProviderConfig s with ⟨res, s1⟩
    cases res with
    | error m => rfl
    | ok d =>
        rcases backend with m | log
        · rfl
        · rcases log with _ | log
          · rfl
          · rcases e1 with _ | x <;> rcases e2 with _ | y <;> rfl
  · intro eff s log d hb hres
    obtain ⟨backend, dbe⟩ := eff
    dsimp only at hb
    subst hb
    unfold generateAndBroadcast tickBody
    rcases hr : resolveActiveAIProviderConfig s with ⟨res, s1⟩
    rw [hr] at hres
    dsimp only at hres
    subst hres
    rcases dbe with _ | e <;> rfl
  · intro eff s
    exact ⟨(tick_preserves eff s).1, (tick_preserves eff s).2.1⟩

/-- Witness for C4 (amended): a failing insert still lets the generated
record be broadcast. -/
theorem persistence_failure_nonfatal_witness :
    (generateAndBroadcast dbFailTick envState).2 =
      [WireMsg.errorLog "LOG"
        ((generateAndBroadcast dbFailTick envState).1.currentProviderInfo)] :=
  persistence_failure_nonfatal.2.1 dbFailTick envState "LOG"
    ⟨"gemini", FALLBACK_GEMINI_MODEL, FALLBACK_GEMINI_API_URL, some "k"⟩ rfl rfl

theorem foldl_removeClient (F acc : List Subscriber) :
    F.foldl (fun a c => removeClient a c.id) acc =
      acc.filter (fun c => decide (∀ f ∈ F, c.id ≠ f.id)) := by
  induction F generalizing acc with
  | nil => simp
  | cons f F ih =>
      rw [List.foldl_cons, ih]
      unfold removeClient
      rw [List.filter_filter]
      refine List.filter_congr ?_
      intro c _
      simp [List.forall_mem_cons, Bool.and_comm]

theorem toRemove_eq (clients : List Subscriber) :
    ((broadcastWs clients).filterMap fun x =>
      match x.2 with
      | .sent => none
      | _ => some x.1) =
    clients.filter (fun c => !(c.isOpen && !c.sendFails)) := by
  induction clients with
  | nil => rfl
  | cons c cs ih =>
      cases hco : c.isOpen <;> cases hcf : c.sendFails <;>
        simp [broadcastWs, attemptSend, List.filterMap_cons, List.filter_cons,
          hco, hcf] <;>
        simpa [broadcastWs] using ih

theorem deliveredIds_eq (clients : List Subscriber) :
    deliveredIds clients =
      (clients.filter (fun c => c.isOpen && !c.sendFails)).map (fun c => c.id) := by
  induction clients with
  | nil => rfl
  | cons c cs ih =>
      cases hco : c.isOpen <;> cases hcf : c.sendFails <;>
        simp [deliveredIds, broadcastWs, attemptSend, List.filterMap_cons,
          List.filter_cons, hco, hcf] <;>
        simpa [deliveredIds, broadcastWs] using ih

/-- C5: one publish round attempts a send to exactly the open connections
(delivery is the filter of open, non-failing subscribers, so a failure or a
closed connection never aborts delivery to the rest: every healthy
subscriber receives the message whatever the others' states), and each
subscriber whose connection is closed or whose send fails is silently
removed from the set while each healthy subscriber survives (given the
set's distinct identities). -/
theorem publish_fault_isolation :
    (∀ clients : List Subscriber,
       (publishStep clients).1 =
         (clients.filter (fun c => c.isOpen && !c.sendFails)).map (fun c => c.id)) ∧
    (∀ (clients : List Subscriber) (c : Subscriber), c ∈ clients →
       c.isOpen = true → c.sendFails = false → c.id ∈ (publishStep clients).1) ∧
    (∀ (clients : List Subscriber) (c : Subscriber), c ∈ clients →
       (c.isOpen = false ∨ c.sendFails = true) →
       ∀ d ∈ (publishStep clients).2, d.id ≠ c.id) ∧
    (∀ (clients : List Subscriber) (c : Subscriber),
       (clients.map (fun x => x.id)).Nodup → c ∈ clients →
       c.isOpen = true → c.sendFails = false → c ∈ (publishStep clients).2) := by
  have hfst : ∀ clients : List Subscriber,
      (publishStep clients).1 = deliveredIds clients := fun _ => rfl
  have hsnd : ∀ clients : List Subscriber,
      (publishStep clients).2 =
        clients.filter (fun c => decide (∀ f ∈ clients.filter
          (fun x : Subscriber => !(x.isOpen && !x.sendFails)), c.id ≠ f.id)) := by
    intro clients
    unfold publishStep
    dsimp only
    rw [toRemove_eq, foldl_removeClient]
  refine ⟨?_, ?_, ?_, ?_⟩
  · intro clients
    rw [hfst, deliveredIds_eq]
  · intro clients c hc ho hf
    rw [hfst, deliveredIds_eq]
    exact List.mem_map.mpr ⟨c, List.mem_filter.mpr ⟨hc, by simp [ho, hf]⟩, rfl⟩
  · intro clients c hc hbad d hd
    rw [hsnd] at hd
    have hdp := (List.mem_filter.mp hd).2
    simp only [decide_eq_true_iff] at hdp
    exact hdp c (List.mem_filter.mpr ⟨hc, by rcases hbad with h | h <;> simp [h]⟩)
  · intro clients c hnd hc ho hf
    rw [hsnd]
    refine List.mem_filter.mpr ⟨hc, ?_⟩
    simp only [decide_eq_true_iff]
    intro f hfm heq
    have hff := List.mem_filter.mp hfm
    have hcf : c = f := List.inj_on_of_nodup_map hnd hc hff.1 heq
    have h2 := hff.2
    rw [← hcf, ho, hf] at h2
    simp at h2

/-- Witness for C5 on three concrete subscribers: the healthy one is
delivered to and kept, the failing one's identity is gone from the set. -/
theorem publish_fault_isolation_witness :
    (1 : Nat) ∈ (publishStep sampleSubs).1 ∧
    (∀ d ∈ (publishStep sampleSubs).2, d.id ≠ (3 : Nat)) ∧
    (⟨1, true, false⟩ : Subscriber) ∈ (publishStep sampleSubs).2 :=
  ⟨publish_fault_isolation.2.1 sampleSubs ⟨1, true, false⟩ (by decide) rfl rfl,
   publish_fault_isolation.2.2.1 sampleSubs ⟨3, true, true⟩ (by decide) (Or.inr rfl),
   publish_fault_isolation.2.2.2 sampleSubs ⟨1, true, false⟩ (by decide) (by decide)
     rfl rfl⟩

theorem startStream_run (i : Int) (eff : TickEffects) (s : ServerState)
    (h : s.isStreaming = false) :
    (startStream i eff s).1.success = true ∧
    (startStream i eff s).1.message = "Stream started" ∧
    (startStream i eff s).1.interval = some (jsIntOr i s.config.interval) ∧
    (startStream i eff s).2.1.timerInterval = some (jsIntOr i s.config.interval) := by
  have hns : ¬ s.isStreaming = true := by simp [h]
  unfold startStream
  rw [if_neg hns]
  dsimp only
  rcases hgb : generateAndBroadcast eff { s with isStreaming := true } with ⟨s2, tickMsgs⟩
  dsimp only
  refine ⟨rfl, rfl, rfl, ?_⟩
  have key : jsIntOr i s.config.interval = if i = 0 then s.config.interval else i := rfl
  rw [key]
  generalize (if i = 0 then s.config.interval else i) = ms
  rcases hbs : broadcastStatusMsg (some ms) { s2 with timerInterval := some ms }
    with ⟨msg, s4⟩
  dsimp only
  have hp := (broadcastStatusMsg_preserves (some ms) { s2 with timerInterval := some ms }).2.2.1
  rw [hbs] at hp
  exact hp

/-- C10 counterexample: a negative override (here `-5`) does not fall back
to the stored config interval — the route reports it as the effective
interval. -/
theorem start_no_range_validation_cex : ¬ startOverrideClaim := by
  intro h
  have h2 := h.2 "-5" quietTick baseState rfl (Or.inr ⟨-5, by decide, by decide⟩)
  have h3 : (startStreamRoute (some "-5") quietTick baseState).1.interval =
      some (-5) := rfl
  rw [h3] at h2
  exact absurd h2 (by decide)

/-- C10 (amended): `start` performs no range validation — when Stopped,
every nonzero parsed override n (positive or negative, e.g. 50, 60000 or
-5) is used verbatim as the timer period and reported as the effective
interval, and only a zero or unparseable override silently falls back to
the stored config interval. -/
theorem start_no_range_validation :
    (∀ (q : Option String) (eff : TickEffects) (s : ServerState),
       s.isStreaming = false →
       (startStreamRoute q eff s).1.success = true ∧
       (startStreamRoute q eff s).1.message = "Stream started" ∧
       (startStreamRoute q eff s).1.interval = some (routeEffectiveInterval q s) ∧
       (startStreamRoute q eff s).2.1.timerInterval =
         some (routeEffectiveInterval q s)) ∧
    (∀ (s : ServerState) (qs : String) (n : Int), parseIntStr qs = some n → n ≠ 0 →
       routeEffectiveInterval (some qs) s = n) ∧
    (∀ (s : ServerState) (qs : String), parseIntStr qs = none →
       routeEffectiveInterval (some qs) s = jsIntOr s.config.interval s.config.interval) ∧
    (∀ (s : ServerState) (qs : String), parseIntStr qs = some 0 →
       routeEffectiveInterval (some qs) s = jsIntOr s.config.interval s.config.interval) := by
  refine ⟨?_, ?_, ?_, ?_⟩
  · intro q eff s h
    unfold startStreamRoute routeEffectiveInterval
    rcases q with _ | qs
    · exact startStream_run s.config.interval eff s h
    · dsimp only
      rcases hp : parseIntStr qs with _ | n
      · exact startStream_run s.config.interval eff s h
      · by_cases hn : n = 0
        · subst hn
          simp only [if_pos rfl]
          exact startStream_run s.config.interval eff s h
        · simp only [if_neg hn]
          exact startStream_run n eff s h
  · intro s qs n hp hn
    show jsIntOr (match parseIntStr qs with
      | none => s.config.interval
      | some n => if n = 0 then s.config.interval else n) s.config.interval = n
    rw [hp]
    dsimp only
    rw [if_neg hn]
    unfold jsIntOr
    rw [if_neg hn]
  · intro s qs hp
    show jsIntOr (match parseIntStr qs with
      | none => s.config.interval
      | some n => if n = 0 then s.config.interval else n) s.config.interval =
      jsIntOr s.config.interval s.config.interval
    rw [hp]
  · intro s qs hp
    show jsIntOr (match parseIntStr qs with
      | none => s.config.interval
      | some n => if n = 0 then s.config.interval else n) s.config.interval =
      jsIntOr s.config.interval s.config.interval
    rw [hp]
    rfl

/-- Witness for C10 (amended) at concrete overrides: `-5` is adopted
verbatim, `abc` and `0` fall back. -/
theorem start_no_range_validation_witness :
    (startStreamRoute (some "-5") quietTick baseState).1.success = true ∧
    (startStreamRoute (some "-5") quietTick baseState).1.interval =
      some (routeEffectiveInterval (some "-5") baseState) ∧
    routeEffectiveInterval (some "-5") baseState = -5 ∧
    routeEffectiveInterval (some "abc") baseState =
      jsIntOr baseState.config.interval baseState.config.interval ∧
    routeEffectiveInterval (some "0") baseState =
      jsIntOr baseState.config.interval baseState.config.interval :=
  ⟨(start_no_range_validation.1 (some "-5") quietTick baseState rfl).1,
   (start_no_range_validation.1 (some "-5") quietTick baseState rfl).2.2.1,
   start_no_range_validation.2.1 baseState "-5" (-5) (by decide) (by decide),
   start_no_range_validation.2.2.1 baseState "abc" (by decide),
   start_no_range_validation.2.2.2 baseState "0" (by decide)⟩

theorem postConfigCore_save_error (req : ConfigRequest) (f : StoreFailures)
    (s1 : ServerState) (msgs0 : List WireMsg) (payload : ProviderPayload) (m : String)
    (hprov : req.aiProvider = some payload)
    (hsave : saveAIProviderSettings f.saveDbError payload s1.aiSettings = .error m) :
    postConfigCore req f s1 msgs0 = (.serverError m, s1, msgs0) := by
  unfold postConfigCore
  rw [hprov]
  dsimp only
  rw [hsave]

/-- C2 counterexample: with a valid interval of 2000 and a provider payload
whose persistence fails, configure answers 500 yet the in-memory interval
has already been changed — the operation is not atomic. -/
theorem configure_atomicity_cex : ¬ configAtomicityClaim := by
  intro h
  have h2 := h c2Request ⟨some "database error", none⟩ quietTick baseState
    "database error" (Or.inr rfl)
  have h3 : (postConfig c2Request ⟨some "database error", none⟩ quietTick
      baseState).2.1.config.interval = 2000 := rfl
  rw [h2] at h3
  exact absurd h3 (by decide)

/-- C2 (amended): an interval outside [1000, 10000] is rejected with a 400
validation error before anything changes (no field applied, no broadcast);
but a provider-settings persistence failure (shown with the stream
stopped) answers 500 with both persisted stores unchanged while the
in-memory interval and template updates of the same request have already
been applied — configure is atomic per store, not as a whole. -/
theorem configure_partial_atomicity :
    (∀ (req : ConfigRequest) (f : StoreFailures) (eff : TickEffects) (s : ServerState)
       (i : Int), req.interval = some i → (i < 1000 ∨ 10000 < i) →
       postConfig req f eff s =
         (.badRequest "Interval must be between 1000ms (1s) and 10000ms (10s)", s, [])) ∧
    (∀ (req : ConfigRequest) (f : StoreFailures) (eff : TickEffects) (s : ServerState)
       (payload : ProviderPayload) (m : String),
       s.isStreaming = false →
       (∀ i, req.interval = some i → 1000 ≤ i ∧ i ≤ 10000) →
       req.aiProvider = some payload →
       saveAIProviderSettings f.saveDbError payload s.aiSettings = .error m →
       postConfig req f eff s =
         (.serverError m,
          { s with config := { interval := req.interval.getD s.config.interval,
                               template := req.template.getD s.config.template } },
          [])) := by
  refine ⟨?_, ?_⟩
  · intro req f eff s i hi hrange
    unfold postConfig
    rw [hi]
    dsimp only
    rw [if_pos hrange]
  · intro req f eff s payload m hstream hrange hprov hsave
    unfold postConfig
    rcases hi : req.interval with _ | i
    · dsimp only
      rcases ht : req.template with _ | t
      · dsimp only
        rw [postConfigCore_save_error req f s [] payload m hprov hsave]
        rfl
      · dsimp only
        rw [postConfigCore_save_error req f
          { s with config := { s.config with template := t } } [] payload m hprov hsave]
        rfl
    · have hcond : ¬ (i < 1000 ∨ 10000 < i) := by
        rcases hrange i hi with ⟨h1, h2⟩
        omega
      dsimp only
      rw [if_neg hcond]
      have hns : ¬ ({ s with config := { s.config with interval := i } }).isStreaming
          = true := by simp [hstream]
      rw [if_neg hns]
      dsimp only
      rcases ht : req.template with _ | t
      · dsimp only
        rw [postConfigCore_save_error req f
          { s with config := { s.config with interval := i } } [] payload m hprov hsave]
        rfl
      · dsimp only
        rw [postConfigCore_save_error req f
          { s with config := { interval := i, template := t } } [] payload m hprov hsave]
        rfl

/-- Witness for C2 (amended) at concrete inputs: a 500-interval request is
rejected unchanged; a failing provider save leaves the stores untouched
but the interval 2000 applied. -/
theorem configure_partial_atomicity_witness :
    postConfig { interval := some 500, template := none,
                 aiProvider := none, appConfig := none }
        ⟨none, none⟩ quietTick baseState =
      (.badRequest "Interval must be between 1000ms (1s) and 10000ms (10s)",
       baseState, []) ∧
    postConfig c2Request ⟨some "database error", none⟩ quietTick baseState =
      (.serverError "database error",
       { baseState with config :=
          { interval := c2Request.interval.getD baseState.config.interval,
            template := c2Request.template.getD baseState.config.template } },
       []) :=
  ⟨configure_partial_atomicity.1
     { interval := some 500, template := none, aiProvider := none, appConfig := none }
     ⟨none, none⟩ quietTick baseState 500 rfl (Or.inl (by decide)),
   configure_partial_atomicity.2 c2Request ⟨some "database error", none⟩ quietTick
     baseState ⟨some "gemini", [("gemini", ⟨some "m", none, none⟩)]⟩ "database error"
     rfl (fun i hi => by cases hi; exact ⟨by decide, by decide⟩) rfl rfl⟩

theorem fallbackChoice_ne_stored (env : Env) (p : String) :
    fallbackChoice env ≠ .stored p := by
  unfold fallbackChoice
  rcases truthyStr env.GEMINI_API_KEY with _ | k <;> simp

theorem selectChoice_stored_inv {ai : ProviderSettings} {ac : AppConfig}
    {env : Env} {p : String} (h : selectChoice ai ac env = .stored p) :
    truthyStr ai.activeProvider = some p ∨
    (truthyStr ai.activeProvider = none ∧
     truthyStr (ac.lookup "ACTIVE_PROVIDER") = some p ∧
     (ai.providers.lookup p).isSome = true) := by
  unfold selectChoice at h
  rcases ha : truthyStr ai.activeProvider with _ | q
  · rw [ha] at h
    dsimp only at h
    rcases hac : truthyStr (ac.lookup "ACTIVE_PROVIDER") with _ | ap
    · rw [hac] at h
      exact absurd h (fallbackChoice_ne_stored env p)
    · rw [hac] at h
      dsimp only at h
      by_cases hl : (ai.providers.lookup ap).isSome
      · rw [if_pos hl] at h
        injection h with hap
        subst hap
        exact Or.inr ⟨rfl, rfl, hl⟩
      · rw [if_neg hl] at h
        exact absurd h (fallbackChoice_ne_stored env p)
  · rw [ha] at h
    dsimp only at h
    injection h with hq
    subst hq
    exact Or.inl rfl

theorem selectChoice_fallback_active {ai : ProviderSettings} {ac : AppConfig}
    {env : Env} {key : String}
    (h : selectChoice ai ac env = .fallbackGemini key) :
    truthyStr ai.activeProvider = none := by
  unfold selectChoice at h
  rcases ha : truthyStr ai.activeProvider with _ | q
  · rfl
  · rw [ha] at h
    cases h

theorem selectChoice_of_active {ai : ProviderSettings} (ac : AppConfig) (env : Env)
    {p : String} (h : truthyStr ai.activeProvider = some p) :
    selectChoice ai ac env = .stored p := by
  unfold selectChoice
  rw [h]

theorem selectChoice_of_appconfig {ai : ProviderSettings} {ac : AppConfig}
    (env : Env) {p : String}
    (ha : truthyStr ai.activeProvider = none)
    (hac : truthyStr (ac.lookup "ACTIVE_PROVIDER") = some p)
    (hl : (ai.providers.lookup p).isSome = true) :
    selectChoice ai ac env = .stored p := by
  unfold selectChoice
  rw [ha]
  dsimp only
  rw [hac]
  dsimp only
  rw [if_pos hl]

/-- C1 counterexample: with ProviderSettings marking "foo" active without a
config entry while the app config records "bar" (which has one), the code
commits to "foo" — and then fails with "Configuration missing" — instead of
falling through to layer 2's "bar" as the claim requires. -/
theorem provider_resolution_layering_cex : ¬ layeredFallbackClaim := by
  intro h
  have h1 := (h c1State).1
  have h2 : (selectProvider c1State).1 = .stored "foo" := rfl
  have h3 : claimedLayeredChoice c1State = .stored "bar" := rfl
  rw [h2, h3] at h1
  exact absurd h1 (by decide)

/-- C1 (amended): resolution follows the layered fallback order with
first-satisfied-wins semantics, except that layer 1 carries no
entry-exists proviso: a truthy active provider is chosen unconditionally,
and when its ProviderConfig entry is missing resolution fails with
"Configuration missing" rather than falling through; below layer 1 the
app-config ACTIVE_PROVIDER is chosen when a matching entry exists,
otherwise the gemini fallback is chosen exactly when GEMINI_API_KEY is
truthy (resolution then succeeding with the hard-coded descriptor), and
otherwise resolution fails with the "no provider configured" error. -/
theorem provider_resolution_layering :
    ∀ s : ServerState,
      (selectProvider s).1 = selectChoice s.aiSettings s.appConfig s.env ∧
      ((selectProvider s).1 = .noneConfigured →
        (resolveActiveAIProviderConfig s).1 =
          .error "No AI provider configured. Please configure one in Settings.") ∧
      (∀ key, (selectProvider s).1 = .fallbackGemini key →
        truthyStr s.env.GEMINI_API_KEY = some key ∧
        (resolveActiveAIProviderConfig s).1 =
          .ok ⟨"gemini", FALLBACK_GEMINI_MODEL, FALLBACK_GEMINI_API_URL, some key⟩) ∧
      (∀ p, truthyStr s.aiSettings.activeProvider = some p →
        s.aiSettings.providers.lookup p = none →
        (resolveActiveAIProviderConfig s).1 =
          .error ("Configuration missing for provider \x22" ++ p ++ "\x22.")) := by
  intro s
  refine ⟨selectProvider_fst s, ?_, ?_, ?_⟩
  · intro h
    have hsc : selectChoice s.aiSettings s.appConfig s.env = .noneConfigured :=
      (selectProvider_fst s).symm.trans h
    rw [resolve_fst_eq]
    unfold resolveFst
    rw [hsc]
  · intro key h
    have hsc : selectChoice s.aiSettings s.appConfig s.env = .fallbackGemini key :=
      (selectProvider_fst s).symm.trans h
    refine ⟨selectChoice_fallback_inv hsc, ?_⟩
    rw [resolve_fst_eq]
    unfold resolveFst
    rw [hsc]
  · intro p hp hl
    have hsc : selectChoice s.aiSettings s.appConfig s.env = .stored p :=
      selectChoice_of_active s.appConfig s.env hp
    rw [resolve_fst_eq]
    unfold resolveFst
    rw [hsc]
    dsimp only
    unfold storedResolution
    rw [hl]

/-- Witness for C1 (amended): the env-only state resolves via the gemini
fallback; an active provider without an entry yields the configuration
missing error. -/
theorem provider_resolution_layering_witness :
    truthyStr envState.env.GEMINI_API_KEY = some "k" ∧
    (resolveActiveAIProviderConfig envState).1 =
      .ok ⟨"gemini", FALLBACK_GEMINI_MODEL, FALLBACK_GEMINI_API_URL, some "k"⟩ ∧
    (resolveActiveAIProviderConfig c1State).1 =
      .error ("Configuration missing for provider \x22" ++ "foo" ++ "\x22.") :=
  ⟨((provider_resolution_layering envState).2.2.1 "k" rfl).1,
   ((provider_resolution_layering envState).2.2.1 "k" rfl).2,
   (provider_resolution_layering c1State).2.2.2 "foo" rfl rfl⟩

/-- C7 counterexample: from a state with an inactive gemini entry carrying
a custom model, no persisted ACTIVE_PROVIDER and GEMINI_API_KEY set, the
first resolution returns the hard-coded fallback descriptor and writes
ACTIVE_PROVIDER="gemini" back, which makes the second resolution select the
stored entry and return a different descriptor (its custom model). -/
theorem resolution_determinism_cex : ¬ resolutionDeterminismClaim := by
  intro h
  have h2 := h c7State
    ⟨"gemini", FALLBACK_GEMINI_MODEL, FALLBACK_GEMINI_API_URL, some "k"⟩ rfl
  have h3 : (resolveActiveAIProviderConfig
      (resolveActiveAIProviderConfig c7State).2).1 =
      .ok ⟨"gemini", "custom-model", FALLBACK_GEMINI_API_URL, some "k"⟩ := rfl
  rw [h3] at h2
  have h4 := congrArg ResolvedProvider.modelName (Except.ok.inj h2)
  exact absurd h4 (by decide)

/-- C7 (amended): two resolutions in a row — the second starting from the
state the first wrote back — return the same result whenever an active
provider is recorded in the stored settings, or the stored providers map
has no "gemini" entry, or the persisted ACTIVE_PROVIDER already matches a
stored entry; outside these cases the first resolution's write-back of
ACTIVE_PROVIDER="gemini" can promote an inactive stored gemini entry and
the second resolution may return a different descriptor. -/
theorem resolution_deterministic_unless_promoted :
    ∀ s : ServerState,
      ((truthyStr s.aiSettings.activeProvider).isSome = true ∨
       s.aiSettings.providers.lookup "gemini" = none ∨
       (∃ ap, truthyStr (s.appConfig.lookup "ACTIVE_PROVIDER") = some ap ∧
              (s.aiSettings.providers.lookup ap).isSome = true)) →
      (resolveActiveAIProviderConfig (resolveActiveAIProviderConfig s).2).1 =
        (resolveActiveAIProviderConfig s).1 := by
  intro s h
  have hai := (resolve_preserves s).1
  have henv := (resolve_preserves s).2.1
  rw [resolve_fst_eq ((resolveActiveAIProviderConfig s).2), resolve_fst_eq s, hai, henv]
  cases hsc : selectChoice s.aiSettings s.appConfig s.env with
  | noneConfigured =>
      rw [resolve_appConfig_none s hsc]
  | stored p =>
      rcases resolve_appConfig_stored s p hsc with hac | hac
      · rw [hac]
      · rw [hac]
        rcases selectChoice_stored_inv hsc with hactive | ⟨hactive, hacp, hl⟩
        · unfold resolveFst
          rw [selectChoice_of_active _ _ hactive, selectChoice_of_active _ _ hactive]
        · have hpne : p ≠ "" := (truthyStr_eq_some hacp).2
          have hnew : selectChoice s.aiSettings
              (setKey s.appConfig "ACTIVE_PROVIDER" p) s.env = .stored p := by
            apply selectChoice_of_appconfig s.env hactive ?_ hl
            rw [lookup_setKey, if_pos rfl, truthyStr_some_ne hpne]
          unfold resolveFst
          rw [hnew, hsc]
  | fallbackGemini key =>
      rw [resolve_appConfig_fallback s key hsc]
      have hactive := selectChoice_fallback_active hsc
      have hlg : s.aiSettings.providers.lookup "gemini" = none := by
        rcases h with h1 | h2 | ⟨ap, hap, hl⟩
        · rw [hactive] at h1
          simp at h1
        · exact h2
        · have hst := selectChoice_of_appconfig s.env hactive hap hl
          rw [hsc] at hst
          cases hst
      have hnew : selectChoice s.aiSettings
          (setKey s.appConfig "ACTIVE_PROVIDER" "gemini") s.env =
          .fallbackGemini key := by
        unfold selectChoice
        rw [hactive]
        dsimp only
        rw [lookup_setKey, if_pos rfl, truthyStr_some_ne (by decide)]
        dsimp only
        rw [hlg]
        rw [if_neg (by simp)]
        unfold fallbackChoice
        rw [selectChoice_fallback_inv hsc]
      unfold resolveFst
      rw [hnew, hsc]

/-- Witness for C7 (amended): with an active ollama provider stored, two
resolutions in a row agree. -/
theorem resolution_deterministic_unless_promoted_witness :
    (resolveActiveAIProviderConfig
        (resolveActiveAIProviderConfig activeOllamaState).2).1 =
      (resolveActiveAIProviderConfig activeOllamaState).1 :=
  resolution_deterministic_unless_promoted activeOllamaState (Or.inl rfl)

end ErrorLogStreamer
